import Mathlib

/-!
Shallow embedding of the `lmo` repository: a CLI tool that translates
Chinese text to English or beautifies English text via a remote
chat-completion service.  The repository has two source variants of the
same module, embedded here in two namespaces:

* `Scripts` — `src/scripts/beauti.py` (the variant with the `-g` style
  flag, also spelled `--github`, and the `_create_prompt` helper);
* `V1` — `src/beauti.py` (the variant with hardcoded prompt strings and
  no style flag).

The remote chat-completion call is abstracted: handlers take a stub
client `svc : ServiceCall → String` giving the remote reply for each
request, and the low-level response extraction (`_process_text`'s tail)
is a function of the received `ChatResponse`.  Raising a Python
exception is modelled by returning `none` / `Except.error`.
-/

/-- A message inside a chat-completion choice; `content` is optional in
the remote API (`None` or a string). -/
structure ChatMessage where
  content : Option String
  deriving DecidableEq

/-- One completion choice of a remote response. -/
structure ChatChoice where
  message : ChatMessage
  deriving DecidableEq

/-- A remote chat-completion response: a list of choices. -/
structure ChatResponse where
  choices : List ChatChoice
  deriving DecidableEq

/-- The instruction pair sent to the remote service: a `system` and a
`user` field (Python `dict` with keys "system"/"user"). -/
structure Prompt where
  system : String
  user : String
  deriving DecidableEq

/-- One outbound service request issued by the `Scripts` variant: which
operation, the subject text, and the style flag `for_git`. -/
inductive ServiceCall where
  | translateCall : String → Bool → ServiceCall
  | beautifyCall : String → Bool → ServiceCall
  deriving DecidableEq

/-- One outbound service request issued by the `V1` variant (no style
flag exists in that variant). -/
inductive V1Call where
  | translateCall : String → V1Call
  | beautifyCall : String → V1Call
  deriving DecidableEq

/-- Python truthiness of an `Optional[str]`: `None` and `""` are falsy. -/
def pyTruthyOptStr (o : Option String) : Bool :=
  match o with
  | none => false
  | some s => s != ""

/-- Python `str.capitalize()` restricted to its effect here: first
character upper-cased, the rest lower-cased. -/
def pyCapitalize (s : String) : String :=
  match s.data with
  | [] => ""
  | c :: rest => String.mk (c.toUpper :: rest.map Char.toLower)

namespace Scripts

/-- Function `check_language` from `src/scripts/beauti.py` lines 40-46:
`re.search("[一-鿿]", s)` then `re.search("[a-zA-Z]", s)`;
a character-class search succeeds iff some character of `s` is in the
class. -/
def check_language (s : String) : String :=
  if s.data.any (fun c => 0x4e00 ≤ c.toNat && c.toNat ≤ 0x9fff) then
    "Chinese"
  else if s.data.any (fun c => ('a' ≤ c && c ≤ 'z') || ('A' ≤ c && c ≤ 'Z')) then
    "English"
  else
    "Unknown"

/-- Function `load_env` from `src/scripts/beauti.py` lines 20-37.  `dotenvFound`
is the boolean result of `load_dotenv()`; `g` is `os.environ` lookup
(`os.getenv(var, "")` is `(g var).getD ""`).  Raising
`EnvironmentVariableError` is modelled by `Except.error` carrying the
message; success returns the ordered key/value mapping. -/
def load_env (dotenvFound : Bool) (g : String → Option String) :
    Except String (List (String × String)) :=
  if !dotenvFound then
    .error ("No .env file found." ++
      "Please create one with the required environment variables.")
  else
    let env_vars := ["GLM_API", "API_URL"].map (fun v => (v, (g v).getD ""))
    let missing_vars := (env_vars.filter (fun p => p.2 == "")).map Prod.fst
    if !missing_vars.isEmpty then
      .error ("Missing environment variables: " ++
        String.intercalate ", " missing_vars)
    else
      .ok (env_vars ++ [("model", "glm4")])

/-- The response-handling tail of `TextTransformer._process_text` in
`src/scripts/beauti.py` lines 78-80, as a function of the response the
remote call returned:
`if response.choices and response.choices[0].message.content: return
response.choices[0].message.content` else `return "No response."`.
Both the emptiness of `choices` and the truthiness of the optional
content are tested before indexing, so this variant never raises. -/
def process_text (response : ChatResponse) : String :=
  match response.choices with
  | [] => "No response."
  | c :: _ =>
    if pyTruthyOptStr c.message.content then
      c.message.content.getD "No response."
    else
      "No response."

/-- The fixed clause appended to the role sentence of the `system`
field when `for_git` is set (`src/scripts/beauti.py` lines 84-88). -/
def github_clause : String :=
  ", especially have experience in writing Github user friendly sentence."

/-- The fixed text of the `user` field between the capitalized task and
the subject text (`src/scripts/beauti.py` lines 92-96). -/
def user_field_middle : String :=
  " the following text, to improve clarity, conciseness, and coherence, " ++
    "making them match the expression of native speakers."

/-- Method `TextTransformer._create_prompt` from `src/scripts/beauti.py` lines
82-97: pure assembly of the `system`/`user` instruction pair from the
role label, the task description, the subject text and the `for_git`
style flag. -/
def create_prompt (role task text : String) (for_git : Bool) : Prompt :=
  { system :=
      if for_git then
        "You are an expert " ++ role ++ github_clause
      else
        "You are an expert " ++ role,
    user := pyCapitalize task ++ user_field_middle ++ "\n\n" ++ text }

/-- The corrective hint logged by `handle_translation` on non-Chinese
input (two adjacent Python string literals, concatenated with no
separator). -/
def translation_hint : String :=
  "Please provide Chinese text to translate." ++
    "If want to beauty English, use -b."

/-- The corrective hint logged by `handle_beautification` on
non-English input. -/
def beautification_hint : String :=
  "Please provide English text to beautify." ++
    "If want to translate Chinese, use -t."

/-- Function `handle_translation` from `src/scripts/beauti.py` lines 139-151.
The transform client is abstracted by the stub `svc` mapping each
outbound request to the remote reply; the result collects the service
calls issued, in order, and the informational lines logged, in order. -/
def handle_translation (svc : ServiceCall → String) (text : String)
    (for_git : Bool) : List ServiceCall × List String :=
  if check_language text == "Chinese" then
    let eng := svc (.translateCall text for_git)
    let pretty := svc (.beautifyCall eng for_git)
    ([.translateCall text for_git, .beautifyCall eng for_git], [eng, pretty])
  else
    ([], [translation_hint])

/-- The declared default of the keyword-only parameter `for_git` of
`handle_translation` (`src/scripts/beauti.py` line 140: `for_git: bool
= True`). -/
def handle_translation_default_for_git : Bool := true

/-- Calling `handle_translation` with the `for_git` keyword omitted,
so the declared default applies. -/
def handle_translation_nokw (svc : ServiceCall → String) (text : String) :
    List ServiceCall × List String :=
  handle_translation svc text handle_translation_default_for_git

/-- Function `handle_beautification` from `src/scripts/beauti.py` lines 154-165,
abstracted over the stub client `svc` as for `handle_translation`. -/
def handle_beautification (svc : ServiceCall → String) (text : String)
    (for_git : Bool) : List ServiceCall × List String :=
  if check_language text == "English" then
    ([.beautifyCall text for_git], [svc (.beautifyCall text for_git)])
  else
    ([], [beautification_hint])

/-- The declared default of the keyword-only parameter `for_git` of
`handle_beautification` (`src/scripts/beauti.py` line 155). -/
def handle_beautification_default_for_git : Bool := true

/-- Calling `handle_beautification` with the `for_git` keyword omitted. -/
def handle_beautification_nokw (svc : ServiceCall → String) (text : String) :
    List ServiceCall × List String :=
  handle_beautification svc text handle_beautification_default_for_git

/-- The value argparse assigns to a flag declared with
`action="store_true"` when the flag is absent from the command line
(`src/scripts/beauti.py` lines 127-135): `False`. -/
def store_true_absent : Bool := false

/-- The usage hint logged by `main` when neither action flag is set. -/
def usage_hint : String := "Please specify an action. Use -h for help."

end Scripts

/-- The observable outcome of one run of `main` in the `Scripts`
variant: whether the transform client was constructed (and hence the
configuration loaded), the outbound service calls in order, and the
informational log lines in order. -/
structure MainOutcome where
  configLoaded : Bool
  calls : List ServiceCall
  logs : List String
  deriving DecidableEq

/-- The observable outcome of one run of `main` in the `V1` variant. -/
structure V1MainOutcome where
  configLoaded : Bool
  calls : List V1Call
  logs : List String
  deriving DecidableEq

namespace Scripts

/-- Function `main` from `src/scripts/beauti.py` lines 168-182: join the content
words with single spaces; if neither action flag is set, log the usage
hint and return before constructing `TextTransformer` (so no
configuration load and no network call); otherwise construct the client
(recorded by `configLoaded`), read `for_git` from the `--github` flag,
and run the translation handler, then the beautification handler, for
whichever flags are set. -/
def main (svc : ServiceCall → String) (translate beautify github : Bool)
    (content : List String) : MainOutcome :=
  let text := String.intercalate " " content
  if !translate && !beautify then
    { configLoaded := false, calls := [], logs := [usage_hint] }
  else
    let for_git := github
    let tr := if translate then handle_translation svc text for_git else ([], [])
    let be := if beautify then handle_beautification svc text for_git else ([], [])
    { configLoaded := true, calls := tr.1 ++ be.1, logs := tr.2 ++ be.2 }

end Scripts

namespace V1

/-- Function `check_language` from `src/beauti.py` lines 40-46 (textually the
same function as in the other variant). -/
def check_language (s : String) : String :=
  if s.data.any (fun c => 0x4e00 ≤ c.toNat && c.toNat ≤ 0x9fff) then
    "Chinese"
  else if s.data.any (fun c => ('a' ≤ c && c ≤ 'z') || ('A' ≤ c && c ≤ 'Z')) then
    "English"
  else
    "Unknown"

/-- Function `load_env` from `src/beauti.py` lines 20-37 (textually the same
function as in the other variant). -/
def load_env (dotenvFound : Bool) (g : String → Option String) :
    Except String (List (String × String)) :=
  if !dotenvFound then
    .error ("No .env file found." ++
      "Please create one with the required environment variables.")
  else
    let env_vars := ["GLM_API", "API_URL"].map (fun v => (v, (g v).getD ""))
    let missing_vars := (env_vars.filter (fun p => p.2 == "")).map Prod.fst
    if !missing_vars.isEmpty then
      .error ("Missing environment variables: " ++
        String.intercalate ", " missing_vars)
    else
      .ok (env_vars ++ [("model", "glm4")])

/-- The response-handling tail of `TextTransformer._process_text` in
`src/beauti.py` lines 78-80:
`response_text = response.choices[0].message.content; return
response_text if response_text else "No response."`.
`choices[0]` is indexed without any guard, so an empty choices list
raises `IndexError`, modelled by `none`; otherwise the first choice's
content is returned when truthy, else the fallback string. -/
def process_text (response : ChatResponse) : Option String :=
  match response.choices with
  | [] => none
  | c :: _ =>
    some (if pyTruthyOptStr c.message.content then
      c.message.content.getD "No response."
    else
      "No response.")

/-- The instruction pair built by `TextTransformer.translate` in
`src/beauti.py` lines 82-96 (adjacent Python string literals
concatenate with no separator). -/
def translate_prompt (text : String) : Prompt :=
  { system := "You are an expert translator," ++
      "translate directly without explanation.",
    user := "Translate the following Chinese text to English," ++
      "to improve clarity, conciseness, and coherence," ++
      "making them match the expression of native speakers." ++
      "\n\n" ++ text }

/-- The instruction pair built by `TextTransformer.beautify` in
`src/beauti.py` lines 98-109 (its fixed text ends in `". "`, so the
paragraph break `"\n\n"` is still immediately before the subject
text). -/
def beautify_prompt (text : String) : Prompt :=
  { system := "You are an expert writer, rewrite the text.",
    user := "Beautify the following English text," ++
      "to improve clarity, conciseness, and coherence," ++
      "making them match the expression of native speakers. " ++
      "\n\n" ++ text }

/-- Function `handle_translation` from `src/beauti.py` lines 128-138, with the
transform client abstracted by the stub `svc` as in the other
variant (this variant has no style flag). -/
def handle_translation (svc : V1Call → String) (text : String) :
    List V1Call × List String :=
  if check_language text == "Chinese" then
    let eng := svc (.translateCall text)
    let pretty := svc (.beautifyCall eng)
    ([.translateCall text, .beautifyCall eng], [eng, pretty])
  else
    ([], ["Please provide Chinese text to translate." ++
      "If want to beauty English, use -b."])

/-- Function `handle_beautification` from `src/beauti.py` lines 141-150. -/
def handle_beautification (svc : V1Call → String) (text : String) :
    List V1Call × List String :=
  if check_language text == "English" then
    ([.beautifyCall text], [svc (.beautifyCall text)])
  else
    ([], ["Please provide English text to beautify." ++
      "If want to translate Chinese, use -t."])

/-- Function `main` from `src/beauti.py` lines 153-167: as in the other variant
but with no `--github` flag. -/
def main (svc : V1Call → String) (translate beautify : Bool)
    (content : List String) : V1MainOutcome :=
  let text := String.intercalate " " content
  if !translate && !beautify then
    { configLoaded := false, calls := [],
      logs := ["Please specify an action. Use -h for help."] }
  else
    let tr := if translate then handle_translation svc text else ([], [])
    let be := if beautify then handle_beautification svc text else ([], [])
    { configLoaded := true, calls := tr.1 ++ be.1, logs := tr.2 ++ be.2 }

end V1

/-! ## Helper lemmas -/

/-- The CJK character-class search succeeds iff some character of the
string lies in U+4E00..U+9FFF. -/
theorem any_cjk_iff (s : String) :
    s.data.any (fun c => 0x4e00 ≤ c.toNat && c.toNat ≤ 0x9fff) = true ↔
      ∃ c ∈ s.data, 0x4e00 ≤ c.toNat ∧ c.toNat ≤ 0x9fff := by
  simp [List.any_eq_true]

/-- The ASCII-letter character-class search succeeds iff some character
of the string is a Latin letter. -/
theorem any_ascii_letter_iff (s : String) :
    s.data.any (fun c => ('a' ≤ c && c ≤ 'z') || ('A' ≤ c && c ≤ 'Z')) = true ↔
      ∃ c ∈ s.data, ('a' ≤ c ∧ c ≤ 'z') ∨ ('A' ≤ c ∧ c ≤ 'Z') := by
  simp [List.any_eq_true]

/-! ## Claim theorems -/

/-- C2: `check_language` is a total pure function returning "Chinese"
iff the string contains a code point in U+4E00..U+9FFF, else "English"
iff it contains an ASCII letter, else "Unknown"; the Chinese check
takes precedence over the English one, and the empty string is
classified "Unknown". -/
theorem c2_check_language_classifies :
    (∀ s : String,
      (Scripts.check_language s = "Chinese" ↔
        ∃ c ∈ s.data, 0x4e00 ≤ c.toNat ∧ c.toNat ≤ 0x9fff) ∧
      (Scripts.check_language s = "English" ↔
        (¬ ∃ c ∈ s.data, 0x4e00 ≤ c.toNat ∧ c.toNat ≤ 0x9fff) ∧
          ∃ c ∈ s.data, ('a' ≤ c ∧ c ≤ 'z') ∨ ('A' ≤ c ∧ c ≤ 'Z')) ∧
      (Scripts.check_language s = "Unknown" ↔
        (¬ ∃ c ∈ s.data, 0x4e00 ≤ c.toNat ∧ c.toNat ≤ 0x9fff) ∧
          ¬ ∃ c ∈ s.data, ('a' ≤ c ∧ c ≤ 'z') ∨ ('A' ≤ c ∧ c ≤ 'Z'))) ∧
    Scripts.check_language "" = "Unknown" := by
  have hCE : ("Chinese" : String) ≠ "English" := by decide
  have hCU : ("Chinese" : String) ≠ "Unknown" := by decide
  have hEC : ("English" : String) ≠ "Chinese" := by decide
  have hEU : ("English" : String) ≠ "Unknown" := by decide
  have hUC : ("Unknown" : String) ≠ "Chinese" := by decide
  have hUE : ("Unknown" : String) ≠ "English" := by decide
  refine ⟨fun s => ?_, rfl⟩
  by_cases h1 : ∃ c ∈ s.data, 0x4e00 ≤ c.toNat ∧ c.toNat ≤ 0x9fff
  · have e : Scripts.check_language s = "Chinese" := by
      unfold Scripts.check_language
      rw [if_pos ((any_cjk_iff s).mpr h1)]
    rw [e]
    exact ⟨⟨fun _ => h1, fun _ => rfl⟩,
      ⟨fun h => absurd h hCE, fun h => absurd h1 h.1⟩,
      ⟨fun h => absurd h hCU, fun h => absurd h1 h.1⟩⟩
  · have hb1 : ¬ s.data.any (fun c => 0x4e00 ≤ c.toNat && c.toNat ≤ 0x9fff) = true :=
      fun hb => h1 ((any_cjk_iff s).mp hb)
    by_cases h2 : ∃ c ∈ s.data, ('a' ≤ c ∧ c ≤ 'z') ∨ ('A' ≤ c ∧ c ≤ 'Z')
    · have e : Scripts.check_language s = "English" := by
        unfold Scripts.check_language
        rw [if_neg hb1, if_pos ((any_ascii_letter_iff s).mpr h2)]
      rw [e]
      exact ⟨⟨fun h => absurd h hEC, fun h => absurd ((any_cjk_iff s).mpr h) hb1⟩,
        ⟨fun _ => ⟨h1, h2⟩, fun _ => rfl⟩,
        ⟨fun h => absurd h hEU, fun h => absurd h2 h.2⟩⟩
    · have hb2 : ¬ s.data.any
          (fun c => ('a' ≤ c && c ≤ 'z') || ('A' ≤ c && c ≤ 'Z')) = true :=
        fun hb => h2 ((any_ascii_letter_iff s).mp hb)
      have e : Scripts.check_language s = "Unknown" := by
        unfold Scripts.check_language
        rw [if_neg hb1, if_neg hb2]
      rw [e]
      exact ⟨⟨fun h => absurd h hUC, fun h => absurd ((any_cjk_iff s).mpr h) hb1⟩,
        ⟨fun h => absurd h hUE, fun h => absurd h.2 h2⟩,
        ⟨fun _ => ⟨h1, h2⟩, fun _ => rfl⟩⟩

/-- C9: the language detector and the configuration loader of the two
source variants are extensionally equal: the two `check_language`
functions agree on every string, and the two `load_env` functions
produce the same mapping or the same error on every environment. -/
theorem c9_variants_agree :
    (∀ s : String, Scripts.check_language s = V1.check_language s) ∧
    (∀ (found : Bool) (g : String → Option String),
      Scripts.load_env found g = V1.load_env found g) :=
  ⟨fun _ => rfl, fun _ _ => rfl⟩

/-- Appending strings concatenates their character lists. -/
theorem string_data_append (a b : String) : (a ++ b).data = a.data ++ b.data := by
  cases a
  cases b
  rfl

/-- C5: for every subject text, the `user` field built by the prompt
builder ends with the subject text verbatim, immediately after the
paragraph break `"\n\n"`, in all three builders (the `Scripts`
`_create_prompt` and the two hardcoded `V1` builders); the part before
the break does not depend on the text, so the text is passed through
unmodified. -/
theorem c5_user_field_ends_with_text :
    ∀ (role task text : String) (for_git : Bool),
      (Scripts.create_prompt role task text for_git).user =
        pyCapitalize task ++ Scripts.user_field_middle ++ "\n\n" ++ text ∧
      List.IsSuffix ("\n\n" ++ text).data
        ((Scripts.create_prompt role task text for_git).user).data ∧
      (V1.translate_prompt text).user =
        ("Translate the following Chinese text to English," ++
          "to improve clarity, conciseness, and coherence," ++
          "making them match the expression of native speakers.") ++
          "\n\n" ++ text ∧
      List.IsSuffix ("\n\n" ++ text).data ((V1.translate_prompt text).user).data ∧
      (V1.beautify_prompt text).user =
        ("Beautify the following English text," ++
          "to improve clarity, conciseness, and coherence," ++
          "making them match the expression of native speakers. ") ++
          "\n\n" ++ text ∧
      List.IsSuffix ("\n\n" ++ text).data ((V1.beautify_prompt text).user).data := by
  intro role task text for_git
  refine ⟨rfl, ⟨(pyCapitalize task ++ Scripts.user_field_middle).data, ?_⟩,
    rfl, ⟨("Translate the following Chinese text to English," ++
      "to improve clarity, conciseness, and coherence," ++
      "making them match the expression of native speakers.").data, ?_⟩,
    rfl, ⟨("Beautify the following English text," ++
      "to improve clarity, conciseness, and coherence," ++
      "making them match the expression of native speakers. ").data, ?_⟩⟩ <;>
    simp [Scripts.create_prompt, V1.translate_prompt, V1.beautify_prompt,
      string_data_append]

/-- C6: the `system` field built by `_create_prompt` is
"You are an expert {role}" when the style flag is false, and that
sentence extended with the Github-friendly clause when the flag is
true; for any role the two values differ. -/
theorem c6_system_field_style :
    ∀ (role task text : String),
      (Scripts.create_prompt role task text false).system =
        "You are an expert " ++ role ∧
      (Scripts.create_prompt role task text true).system =
        "You are an expert " ++ role ++ Scripts.github_clause ∧
      (Scripts.create_prompt role task text true).system ≠
        (Scripts.create_prompt role task text false).system := by
  intro role task text
  refine ⟨rfl, rfl, ?_⟩
  intro h
  rw [show (Scripts.create_prompt role task text true).system =
        "You are an expert " ++ role ++ Scripts.github_clause from rfl,
      show (Scripts.create_prompt role task text false).system =
        "You are an expert " ++ role from rfl] at h
  have hl := congrArg String.length h
  simp only [String.length_append] at hl
  have h0 : Scripts.github_clause.length = 0 := by omega
  exact absurd h0 (by decide)

/-- C7: when neither the translate flag nor the beautify flag is set,
`main` logs only the usage hint and returns without constructing the
transform client: the configuration is not loaded and no service call
is issued, in both source variants. -/
theorem c7_no_action_no_config_no_calls :
    ∀ (svc : ServiceCall → String) (svc2 : V1Call → String) (github : Bool)
      (content content2 : List String),
      Scripts.main svc false false github content =
        { configLoaded := false, calls := [], logs := [Scripts.usage_hint] } ∧
      V1.main svc2 false false content2 =
        { configLoaded := false, calls := [],
          logs := ["Please specify an action. Use -h for help."] } :=
  fun _ _ _ _ _ => ⟨rfl, rfl⟩

/-- C3: when the translate action is requested on text detected as
Chinese, the dispatcher issues a translate call on the input and then
a beautify call on the translate reply, both with the same style flag,
and logs exactly the two replies in that order; on non-Chinese text it
issues no service call and logs the corrective hint. -/
theorem c3_translate_then_beautify :
    ∀ (svc : ServiceCall → String) (text : String) (for_git : Bool),
      (Scripts.check_language text = "Chinese" →
        Scripts.handle_translation svc text for_git =
          ([ServiceCall.translateCall text for_git,
            ServiceCall.beautifyCall
              (svc (ServiceCall.translateCall text for_git)) for_git],
           [svc (ServiceCall.translateCall text for_git),
            svc (ServiceCall.beautifyCall
              (svc (ServiceCall.translateCall text for_git)) for_git)])) ∧
      (Scripts.check_language text ≠ "Chinese" →
        Scripts.handle_translation svc text for_git =
          ([], [Scripts.translation_hint])) := by
  intro svc text for_git
  constructor
  · intro h
    simp [Scripts.handle_translation, h]
  · intro h
    simp [Scripts.handle_translation, h]

/-- Witness for C3 at the Chinese input from the spec and at an English
input. -/
theorem c3_translate_then_beautify_witness :
    Scripts.handle_translation (fun _ => "ok") "你好" true =
      ([ServiceCall.translateCall "你好" true,
        ServiceCall.beautifyCall "ok" true], ["ok", "ok"]) ∧
    Scripts.handle_translation (fun _ => "ok") "hi" true =
      ([], [Scripts.translation_hint]) :=
  ⟨(c3_translate_then_beautify (fun _ => "ok") "你好" true).1 (by decide),
   (c3_translate_then_beautify (fun _ => "ok") "hi" true).2 (by decide)⟩

/-- C8: when the beautify action is requested on text detected as
English, the dispatcher issues one beautify call and logs its reply;
on non-English text (for example Chinese input) it issues no service
call and logs the corrective hint — in both source variants. -/
theorem c8_beautify_gate :
    ∀ (svc : ServiceCall → String) (svc2 : V1Call → String) (text : String)
      (for_git : Bool),
      (Scripts.check_language text = "English" →
        Scripts.handle_beautification svc text for_git =
          ([ServiceCall.beautifyCall text for_git],
           [svc (ServiceCall.beautifyCall text for_git)])) ∧
      (Scripts.check_language text ≠ "English" →
        Scripts.handle_beautification svc text for_git =
          ([], [Scripts.beautification_hint])) ∧
      (V1.check_language text = "English" →
        V1.handle_beautification svc2 text =
          ([V1Call.beautifyCall text], [svc2 (V1Call.beautifyCall text)])) ∧
      (V1.check_language text ≠ "English" →
        V1.handle_beautification svc2 text =
          ([], ["Please provide English text to beautify." ++
            "If want to translate Chinese, use -t."])) := by
  intro svc svc2 text for_git
  refine ⟨fun h => ?_, fun h => ?_, fun h => ?_, fun h => ?_⟩ <;>
    simp [Scripts.handle_beautification, V1.handle_beautification, h]

/-- Witness for C8 at an English input and at the Chinese input from
the spec. -/
theorem c8_beautify_gate_witness :
    Scripts.handle_beautification (fun _ => "ok") "hi" false =
      ([ServiceCall.beautifyCall "hi" false], ["ok"]) ∧
    Scripts.handle_beautification (fun _ => "ok") "你好" false =
      ([], [Scripts.beautification_hint]) ∧
    V1.handle_beautification (fun _ => "ok") "你好" =
      ([], ["Please provide English text to beautify." ++
        "If want to translate Chinese, use -t."]) :=
  ⟨(c8_beautify_gate (fun _ => "ok") (fun _ => "ok") "hi" false).1 (by decide),
   (c8_beautify_gate (fun _ => "ok") (fun _ => "ok") "你好" false).2.1 (by decide),
   (c8_beautify_gate (fun _ => "ok") (fun _ => "ok") "你好" false).2.2.2 (by decide)⟩

/-- C4: the configuration loader fails with the fixed message when the
environment file is absent; when required values are missing or empty
its error message lists every missing name (GLM_API before API_URL,
both when both are missing); on success it returns the mapping with
both values and the hardcoded model name, all present and non-empty. -/
theorem c4_load_env_contract :
    (∀ g : String → Option String,
      Scripts.load_env false g =
        .error ("No .env file found." ++
          "Please create one with the required environment variables.")) ∧
    (∀ g : String → Option String,
      (g "GLM_API").getD "" = "" → (g "API_URL").getD "" = "" →
        Scripts.load_env true g =
          .error "Missing environment variables: GLM_API, API_URL") ∧
    (∀ g : String → Option String,
      (g "GLM_API").getD "" = "" → (g "API_URL").getD "" ≠ "" →
        Scripts.load_env true g =
          .error "Missing environment variables: GLM_API") ∧
    (∀ g : String → Option String,
      (g "GLM_API").getD "" ≠ "" → (g "API_URL").getD "" = "" →
        Scripts.load_env true g =
          .error "Missing environment variables: API_URL") ∧
    (∀ g : String → Option String,
      (g "GLM_API").getD "" ≠ "" → (g "API_URL").getD "" ≠ "" →
        Scripts.load_env true g =
          .ok [("GLM_API", (g "GLM_API").getD ""),
               ("API_URL", (g "API_URL").getD ""), ("model", "glm4")]) := by
  refine ⟨fun g => rfl, fun g ha hb => ?_, fun g ha hb => ?_,
    fun g ha hb => ?_, fun g ha hb => ?_⟩ <;>
    simp [Scripts.load_env, ha, hb, String.intercalate] <;> decide

/-- Witness for C4: with an empty environment the error lists both
names; with both values present the full mapping is returned. -/
theorem c4_load_env_contract_witness :
    Scripts.load_env true (fun _ => none) =
      .error "Missing environment variables: GLM_API, API_URL" ∧
    Scripts.load_env true (fun v => some v) =
      .ok [("GLM_API", "GLM_API"), ("API_URL", "API_URL"), ("model", "glm4")] :=
  ⟨c4_load_env_contract.2.1 (fun _ => none) rfl rfl,
   c4_load_env_contract.2.2.2.2 (fun v => some v) (by decide) (by decide)⟩

/-- C1 counterexample: the claim asserts the dispatch operation never
fails on a response with an empty choices list and returns the fixed
fallback there; in the `src/beauti.py` variant an empty choices list
raises (`choices[0]` is unguarded) instead of producing the
fallback. -/
theorem c1_counterexample_empty_choices :
    V1.process_text { choices := [] } = none ∧
    V1.process_text { choices := [] } ≠ some "No response." :=
  ⟨rfl, by decide⟩

/-- C1 amended: the `src/scripts/beauti.py` dispatch returns the first
choice's content verbatim when the choices list is non-empty and the
content is non-empty, and "No response." when there are no choices or
the content is empty or absent, never failing; the `src/beauti.py`
variant agrees on every response with a non-empty choices list but
raises on an empty choices list. -/
theorem c1_process_text_fallback :
    (Scripts.process_text { choices := [] } = "No response.") ∧
    (∀ (s : String) (rest : List ChatChoice), s ≠ "" →
      Scripts.process_text
        { choices := { message := { content := some s } } :: rest } = s) ∧
    (∀ rest : List ChatChoice,
      Scripts.process_text
        { choices := { message := { content := some "" } } :: rest } =
        "No response.") ∧
    (∀ rest : List ChatChoice,
      Scripts.process_text
        { choices := { message := { content := none } } :: rest } =
        "No response.") ∧
    (∀ (ch : ChatChoice) (rest : List ChatChoice),
      V1.process_text { choices := ch :: rest } =
        some (Scripts.process_text { choices := ch :: rest })) ∧
    (∀ r : ChatResponse, r.choices = [] → V1.process_text r = none) := by
  refine ⟨rfl, ?_,
    fun rest => by simp [Scripts.process_text, pyTruthyOptStr],
    fun rest => rfl, fun ch rest => rfl, ?_⟩
  · intro s rest h
    simp [Scripts.process_text, pyTruthyOptStr, h]
  · intro r h
    obtain ⟨choices⟩ := r
    cases choices with
    | nil => rfl
    | cons a l => exact absurd h (List.cons_ne_nil a l)

/-- Witness for the amended C1: a non-empty reply is passed through
verbatim by the `Scripts` dispatch, and the `V1` dispatch raises on an
empty choices list. -/
theorem c1_process_text_fallback_witness :
    Scripts.process_text
      { choices := [{ message := { content := some "Hello" } }] } = "Hello" ∧
    V1.process_text { choices := [] } = none :=
  ⟨c1_process_text_fallback.2.1 "Hello" [] (by decide),
   c1_process_text_fallback.2.2.2.2.2 { choices := [] } rfl⟩

/-- Helper: joining a one-element word list with single spaces gives
the word back. -/
theorem intercalate_singleton (s a : String) : String.intercalate s [a] = a := rfl

/-- C10: in the `src/scripts/beauti.py` variant both public handlers
declare the default `for_git = True`, while `main` always passes the
`--github` flag explicitly and argparse makes that flag `False` when
`-g` is absent; so on the same Chinese input a direct caller omitting
the keyword gets style-flag-true calls while the CLI default path gets
style-flag-false calls. -/
theorem c10_default_style_flag_mismatch :
    ∀ (svc : ServiceCall → String) (text : String),
      Scripts.handle_translation_default_for_git = true ∧
      Scripts.handle_beautification_default_for_git = true ∧
      Scripts.store_true_absent = false ∧
      (Scripts.check_language text = "Chinese" →
        (Scripts.handle_translation_nokw svc text).1 =
          [ServiceCall.translateCall text true,
           ServiceCall.beautifyCall
             (svc (ServiceCall.translateCall text true)) true] ∧
        (Scripts.main svc true false Scripts.store_true_absent [text]).calls =
          [ServiceCall.translateCall text false,
           ServiceCall.beautifyCall
             (svc (ServiceCall.translateCall text false)) false]) := by
  intro svc text
  refine ⟨rfl, rfl, rfl, fun h => ⟨?_, ?_⟩⟩
  · simp [Scripts.handle_translation_nokw, Scripts.handle_translation,
      Scripts.handle_translation_default_for_git, h]
  · simp [Scripts.main, Scripts.handle_translation, Scripts.store_true_absent,
      intercalate_singleton, h]

/-- Witness for C10 at the Chinese input "你好". -/
theorem c10_default_style_flag_mismatch_witness :
    (Scripts.handle_translation_nokw (fun _ => "E") "你好").1 =
      [ServiceCall.translateCall "你好" true,
       ServiceCall.beautifyCall "E" true] ∧
    (Scripts.main (fun _ => "E") true false Scripts.store_true_absent
        ["你好"]).calls =
      [ServiceCall.translateCall "你好" false,
       ServiceCall.beautifyCall "E" false] :=
  (c10_default_style_flag_mismatch (fun _ => "E") "你好").2.2.2 (by decide)
